import Mathlib

/-!
Verification of the attendance session engine of the Attendance-System
repository.  The durable data model (the Mongoose `attendanceSchema` in
src/backend/models/Attendance.js) and the student dashboard scan handler
(`handleScan` in the StudentDashboard component) are embedded directly from
the source.  The backend route handlers that implement the session engine
(open a session, mark attendance, session detail, per-subject reports) are
not present under src/ — only their callers (the dashboards) and the schema
are — so those operations are modelled from the specification, as flagged on
each definition.
-/

/-- Session status: the `status` enum of the attendance schema
(`enum: ['active', 'expired']`) and of the spec's Session record. -/
inductive SessionStatus
  | active
  | expired
  deriving DecidableEq, Repr

/-- Modelled from the spec: the Session record of §3 of the spec.  The
stored schema (src/backend/models/Attendance.js) carries faculty (ownerId),
subject, classRoom, qrCode (code), sessionDate (createdAt), status and
markedStudents; the window duration and the opaque id appear only in the
spec's engine, whose route handlers are not under src/. -/
structure Session where
  id : String
  ownerId : String
  subject : String
  classroom : String
  code : String
  createdAt : Int
  windowDuration : Int
  status : SessionStatus
  markedStudents : List String
  deriving DecidableEq, Repr

/-- Modelled from the spec: `isActive(session, now)` of §4.2 — true iff
`status == Active` and `now < createdAt + windowDuration`. -/
def isActive (s : Session) (now : Int) : Bool :=
  decide (s.status = SessionStatus.active) && decide (now < s.createdAt + s.windowDuration)

/-- Result of a `mark` call: typed outcomes of §4.3 and §7 of the spec. -/
inductive MarkResult
  | success (subject classroom : String)
  | notFound
  | expired
  | alreadyMarked
  deriving DecidableEq, Repr

/-- Modelled from the spec: the attendance marking service `mark(code,
studentId, now)` of §4.3 (its route handler is not under src/).  Look the
session up by code; unknown code fails NotFound; an inactive session is
transitioned to Expired and fails Expired; a student already present fails
AlreadyMarked with no mutation; otherwise the student is added. -/
def mark (store : List Session) (code studentId : String) (now : Int) :
    MarkResult × List Session :=
  match store.find? (fun t => t.code == code) with
  | none => (MarkResult.notFound, store)
  | some s =>
    if isActive s now then
      if s.markedStudents.contains studentId then
        (MarkResult.alreadyMarked, store)
      else
        (MarkResult.success s.subject s.classroom,
         store.map (fun t =>
           if t.code == code then
             { t with markedStudents := studentId :: t.markedStudents }
           else t))
    else
      (MarkResult.expired,
       store.map (fun t =>
         if t.code == code then { t with status := SessionStatus.expired } else t))

/-- Result of `openSession`: the new session, or a code collision. -/
inductive OpenResult
  | opened (s : Session)
  | conflict
  deriving DecidableEq, Repr

/-- Modelled from the spec: `openSession` of §4.2 (its route handler is not
under src/).  Inserts a fresh Active session; a collision of the generated
code with any stored session's code is a hard ConflictError and nothing is
inserted.  The schema's `unique: true` index on qrCode
(src/backend/models/Attendance.js) is what rejects the duplicate insert. -/
def openSession (store : List Session) (ownerId subject classroom : String)
    (windowDuration : Int) (code id : String) (now : Int) :
    OpenResult × List Session :=
  if store.any (fun t => t.code == code) then
    (OpenResult.conflict, store)
  else
    let s : Session :=
      { id := id, ownerId := ownerId, subject := subject, classroom := classroom,
        code := code, createdAt := now, windowDuration := windowDuration,
        status := SessionStatus.active, markedStudents := [] }
    (OpenResult.opened s, s :: store)

/-- Modelled from the spec: `expire(sessionId)` of §4.2 (its route handler
is not under src/): a compare-and-set transition to Expired, a no-op on a
session that is already expired. -/
def expire (store : List Session) (sessionId : String) : List Session :=
  store.map (fun t =>
    if t.id == sessionId && decide (t.status = SessionStatus.active) then
      { t with status := SessionStatus.expired }
    else t)

/-- Result of `sessionDetail`: the typed outcomes of §4.4 of the spec. -/
inductive DetailResult
  | detail (status : SessionStatus) (students : List String)
  | notFound
  | forbidden
  deriving DecidableEq, Repr

/-- Modelled from the spec: `sessionDetail(sessionId, ownerId)` of §4.4 (its
route handler is not under src/; the FacultyDashboard caller distinguishes
its 404 and 403 outcomes).  Authorized only for the owner. -/
def sessionDetail (store : List Session) (sessionId requesterId : String) : DetailResult :=
  match store.find? (fun t => t.id == sessionId) with
  | none => DetailResult.notFound
  | some s =>
    if s.ownerId == requesterId then DetailResult.detail s.status s.markedStudents
    else DetailResult.forbidden

/-- Declarative count of an owner's sessions for one subject (sessions with
zero marks included). -/
def totalSessions (store : List Session) (ownerId subject : String) : Nat :=
  ((store.filter (fun t => t.ownerId == ownerId)).filter
    (fun t => t.subject == subject)).length

/-- Declarative count of the group sessions whose markedStudents contain the
student. -/
def attendanceCount (store : List Session) (ownerId subject studentId : String) : Nat :=
  (((store.filter (fun t => t.ownerId == ownerId)).filter
    (fun t => t.subject == subject)).filter
      (fun t => t.markedStudents.contains studentId)).length

/-- Modelled from the spec: the per-subject half of `reportFor` (§4.4, route
handler not under src/): session count of the group, and for every student
ever seen in the group's markedStudents, the occurrence count and the
percentage `count / totalSessions * 100`, unrounded (rational). -/
def subjectReport (group : List Session) : Nat × List (String × Nat × ℚ) :=
  let total := group.length
  let studs := ((group.map (fun t => t.markedStudents)).flatten).eraseDups
  (total, studs.map (fun st =>
    let cnt := (group.filter (fun t => t.markedStudents.contains st)).length
    (st, cnt, Rat.divInt (cnt * 100) total)))

/-- Modelled from the spec: `reportFor(ownerId)` of §4.4 (route handler not
under src/): fetch every session owned by ownerId, group by subject, and
compute each group's report. -/
def reportFor (store : List Session) (ownerId : String) :
    List (String × Nat × List (String × Nat × ℚ)) :=
  let owned := store.filter (fun t => t.ownerId == ownerId)
  ((owned.map (fun t => t.subject)).eraseDups).map
    (fun subj => (subj, subjectReport (owned.filter (fun t => t.subject == subj))))

/-- One engine operation, for stating store-level invariants. -/
inductive EngineOp
  | openOp (ownerId subject classroom : String) (windowDuration : Int)
      (code id : String) (now : Int)
  | markOp (code studentId : String) (now : Int)
  | expireOp (sessionId : String)
  deriving Repr

/-- The store after one engine operation. -/
def stepOp (store : List Session) (op : EngineOp) : List Session :=
  match op with
  | EngineOp.openOp o su cl w c i n => (openSession store o su cl w c i n).2
  | EngineOp.markOp c st n => (mark store c st n).2
  | EngineOp.expireOp i => expire store i

/-- The stored sessions carry pairwise-distinct codes. -/
def codesNodup (store : List Session) : Prop :=
  (store.map (fun t => t.code)).Nodup

/- ### Embedding of the Mongoose attendance schema (src/backend/models/Attendance.js) -/

/-- A document as handed to Attendance creation: optional fields before
defaults are applied, mirroring the schema's field set. -/
structure AttendanceInput where
  faculty : Option String
  markedStudents : List String
  subject : Option String
  sessionDate : Option Int
  qrCode : Option String
  status : Option String
  classRoom : Option String
  deriving DecidableEq, Repr

/-- A stored Attendance document after defaults and validation. -/
structure AttendanceDoc where
  faculty : String
  markedStudents : List String
  subject : String
  sessionDate : Int
  qrCode : String
  status : String
  classRoom : String
  deriving DecidableEq, Repr

/-- Creation of an Attendance document under the schema of
src/backend/models/Attendance.js: faculty, subject, qrCode and classRoom are
required; sessionDate is required with default Date.now (the creation time);
status defaults to "active" and must be one of "active"/"expired";
markedStudents is a plain unconstrained array. -/
def createAttendance (input : AttendanceInput) (now : Int) : Option AttendanceDoc :=
  input.faculty.bind (fun f =>
  input.subject.bind (fun subj =>
  input.qrCode.bind (fun q =>
  input.classRoom.bind (fun c =>
    let st := input.status.getD "active"
    if st = "active" ∨ st = "expired" then
      some { faculty := f, markedStudents := input.markedStudents, subject := subj,
             sessionDate := input.sessionDate.getD now, qrCode := q,
             status := st, classRoom := c }
    else none))))

/- ### Embedding of the student dashboard scan handler (StudentDashboard.handleScan) -/

/-- The component state touched by `handleScan` in the StudentDashboard:
lastScanTime, loading, scanning, success, error, and a count of
fetchAttendanceHistory calls standing for the attendance-history refresh. -/
structure ScanState where
  lastScanTime : Int
  loading : Bool
  scanning : Bool
  success : Option String
  error : Option String
  historyFetches : Nat
  deriving DecidableEq, Repr

/-- Outcome of the POST /api/attendance/mark request issued by handleScan. -/
inductive ScanResponse
  | ok
  | err (message : String)
  deriving DecidableEq, Repr

/-- JavaScript `hay.includes(needle)`: substring containment. -/
def stringIncludes (hay needle : String) : Bool :=
  hay.data.tails.any (fun t => needle.data.isPrefixOf t)

/-- The `handleScan` callback of the StudentDashboard (src/unnamed/part_000
lines 100-127): drop the scan when it comes less than 3000 ms after the last
accepted one; otherwise record the scan time, send the mark request, and on
success set the success banner, stop scanning and refresh the history, while
a failure sets the error banner and stops scanning only when the message
includes "already marked".  The returned Bool is whether the request was
sent. -/
def handleScan (st : ScanState) (now : Int) (resp : ScanResponse) : ScanState × Bool :=
  if now - st.lastScanTime < 3000 then
    (st, false)
  else
    let st1 := { st with lastScanTime := now, loading := true }
    match resp with
    | ScanResponse.ok =>
        ({ st1 with success := some "Attendance marked successfully!",
                    scanning := false,
                    historyFetches := st1.historyFetches + 1,
                    loading := false }, true)
    | ScanResponse.err msg =>
        ({ st1 with error := some msg,
                    scanning := if stringIncludes msg "already marked" then false
                                else st1.scanning,
                    loading := false }, true)

/- ### Sample data used by the concrete parts of the claims -/

/-- A concrete active session used by witnesses. -/
def wSession : Session :=
  { id := "sid1", ownerId := "F1", subject := "Math", classroom := "R1",
    code := "code1", createdAt := 0, windowDuration := 60000,
    status := SessionStatus.active, markedStudents := [] }

/-- A one-session concrete store used by witnesses. -/
def wStore : List Session := [wSession]

/-- Session S1 of the spec's aggregation example: marked students A and B. -/
def mathS1 : Session :=
  { id := "s1", ownerId := "F1", subject := "Math", classroom := "R1",
    code := "q1", createdAt := 0, windowDuration := 120000,
    status := SessionStatus.expired, markedStudents := ["A", "B"] }

/-- Session S2 of the spec's aggregation example: marked student A only. -/
def mathS2 : Session :=
  { id := "s2", ownerId := "F1", subject := "Math", classroom := "R1",
    code := "q2", createdAt := 0, windowDuration := 120000,
    status := SessionStatus.expired, markedStudents := ["A"] }

/-- The two-session store of the spec's aggregation example. -/
def mathStore : List Session := [mathS1, mathS2]

/- ### Helper lemmas -/

/-- Updating every matching session with a predicate-preserving function
moves the first match along: find? on the updated store returns the updated
first match. -/
lemma find?_map_ite (p : Session → Bool) (g : Session → Session)
    (hg : ∀ t, p t = true → p (g t) = true) :
    ∀ (l : List Session) (s : Session), l.find? p = some s →
      (l.map (fun t => if p t then g t else t)).find? p = some (g s) := by
  intro l
  induction l with
  | nil => intro s h; simp [List.find?] at h
  | cons a l ih =>
    intro s h
    by_cases hpa : p a = true
    · rw [List.find?_cons_of_pos _ hpa] at h
      injection h with h
      subst h
      simp only [List.map_cons, if_pos hpa]
      exact List.find?_cons_of_pos _ (hg a hpa)
    · rw [List.find?_cons_of_neg _ hpa] at h
      simp only [List.map_cons, if_neg hpa]
      rw [List.find?_cons_of_neg _ hpa]
      exact ih s h

/-- A conditional per-session update that preserves the code field leaves
the list of stored codes unchanged. -/
lemma map_code_ite (p : Session → Bool) (g : Session → Session)
    (hg : ∀ t, (g t).code = t.code) :
    ∀ (l : List Session),
      ((l.map (fun t => if p t then g t else t)).map (fun t => t.code)) =
        l.map (fun t => t.code) := by
  intro l
  induction l with
  | nil => rfl
  | cons a l ih =>
    simp only [List.map_cons, ih]
    by_cases hpa : p a = true
    · rw [if_pos hpa, hg]
    · rw [if_neg hpa]

/-- Looking a key up in a list that pairs each key with a function of it
returns that function's value. -/
lemma lookup_map_pair {β : Type} (f : String → β) :
    ∀ (l : List String) (k : String) (v : β),
      (l.map (fun a => (a, f a))).lookup k = some v → v = f k := by
  intro l
  induction l with
  | nil => intro k v h; simp [List.lookup] at h
  | cons a l ih =>
    intro k v h
    simp only [List.map_cons, List.lookup] at h
    cases hak : k == a with
    | true =>
      rw [hak] at h
      injection h with h
      rw [← h, beq_iff_eq.mp hak]
    | false =>
      rw [hak] at h
      exact ih k v h

/-- The executable percentage equals the spec's `count / total * 100`. -/
lemma divInt_percentage (cnt total : Nat) :
    Rat.divInt ((cnt : Int) * 100) (total : Int) = ((cnt : ℚ) / (total : ℚ)) * 100 := by
  rw [Rat.divInt_eq_div]
  push_cast
  ring

/- ### Claim theorems -/

/-- Claim C7: `isActive(session, now)` returns true iff the session's
status is Active and now is strictly before `createdAt + windowDuration`. -/
theorem isActive_iff_active_and_in_window (s : Session) (now : Int) :
    isActive s now = true ↔
      (s.status = SessionStatus.active ∧ now < s.createdAt + s.windowDuration) := by
  simp [isActive]

/-- Witness for C7 at a concrete session and instant. -/
theorem isActive_iff_active_and_in_window_witness :
    isActive wSession 10 = true :=
  (isActive_iff_active_and_in_window wSession 10).mpr ⟨rfl, by decide⟩

/-- Claim C10: in the student dashboard's handleScan, a scan arriving less
than 3000 ms after the last accepted scan is dropped — no request is sent
and no part of the state (success, error, history, scan time) changes —
while a scan at or past the threshold sends the request and records its
time as the last accepted scan. -/
theorem handleScan_three_second_debounce (st : ScanState) (now : Int) (resp : ScanResponse) :
    (now - st.lastScanTime < 3000 → handleScan st now resp = (st, false)) ∧
    (3000 ≤ now - st.lastScanTime →
      (handleScan st now resp).2 = true ∧
      (handleScan st now resp).1.lastScanTime = now) := by
  constructor
  · intro h
    simp [handleScan, h]
  · intro h
    have h' : ¬ (now - st.lastScanTime < 3000) := by omega
    cases resp <;> simp [handleScan, h']

/-- Witness for C10: a scan 1000 ms after the last accepted one is dropped
whole; a scan 3000 ms after is processed. -/
theorem handleScan_three_second_debounce_witness :
    (handleScan { lastScanTime := 5000, loading := false, scanning := true,
                  success := none, error := none, historyFetches := 0 } 6000
        ScanResponse.ok =
      ({ lastScanTime := 5000, loading := false, scanning := true,
         success := none, error := none, historyFetches := 0 }, false)) ∧
    ((handleScan { lastScanTime := 5000, loading := false, scanning := true,
                   success := none, error := none, historyFetches := 0 } 8000
        ScanResponse.ok).2 = true ∧
      (handleScan { lastScanTime := 5000, loading := false, scanning := true,
                    success := none, error := none, historyFetches := 0 } 8000
        ScanResponse.ok).1.lastScanTime = 8000) :=
  ⟨(handleScan_three_second_debounce _ 6000 ScanResponse.ok).1 (by decide),
   (handleScan_three_second_debounce _ 8000 ScanResponse.ok).2 (by decide)⟩

/-- The mark call on a found, active session with the student absent:
success and the student is pushed onto every stored session with that code. -/
lemma mark_success_eq (store : List Session) (s : Session) (code studentId : String)
    (now : Int)
    (hfind : store.find? (fun t => t.code == code) = some s)
    (hact : isActive s now = true)
    (hnot : studentId ∉ s.markedStudents) :
    mark store code studentId now =
      (MarkResult.success s.subject s.classroom,
       store.map (fun t =>
         if t.code == code then
           { t with markedStudents := studentId :: t.markedStudents }
         else t)) := by
  simp only [mark, hfind]
  simp [hact, hnot]

/-- The mark call on a found, active session already containing the student:
AlreadyMarked, and the store is returned untouched. -/
lemma mark_already_eq (store : List Session) (s : Session) (code studentId : String)
    (now : Int)
    (hfind : store.find? (fun t => t.code == code) = some s)
    (hact : isActive s now = true)
    (hmem : studentId ∈ s.markedStudents) :
    mark store code studentId now = (MarkResult.alreadyMarked, store) := by
  simp only [mark, hfind]
  simp [hact, hmem]

/-- The mark call on a found but inactive session: Expired, and every stored
session with that code is transitioned to Expired. -/
lemma mark_expired_eq (store : List Session) (s : Session) (code studentId : String)
    (now : Int)
    (hfind : store.find? (fun t => t.code == code) = some s)
    (hinact : isActive s now = false) :
    mark store code studentId now =
      (MarkResult.expired,
       store.map (fun t =>
         if t.code == code then { t with status := SessionStatus.expired } else t)) := by
  simp only [mark, hfind]
  simp [hinact]

/-- Claim C1: marking the same student twice against a session's code while
the window is open records exactly one membership; the second call fails
with AlreadyMarked and mutates nothing. -/
theorem mark_twice_single_membership
    (store : List Session) (s : Session) (code studentId : String) (now1 now2 : Int)
    (hfind : store.find? (fun t => t.code == code) = some s)
    (hact : isActive s now1 = true)
    (hnot : studentId ∉ s.markedStudents)
    (hwin : now2 < s.createdAt + s.windowDuration) :
    (mark store code studentId now1).1 = MarkResult.success s.subject s.classroom ∧
    ((mark store code studentId now1).2.find? (fun t => t.code == code) =
      some { s with markedStudents := studentId :: s.markedStudents }) ∧
    List.count studentId (studentId :: s.markedStudents) = 1 ∧
    (mark (mark store code studentId now1).2 code studentId now2).1 =
      MarkResult.alreadyMarked ∧
    (mark (mark store code studentId now1).2 code studentId now2).2 =
      (mark store code studentId now1).2 := by
  have hmark1 := mark_success_eq store s code studentId now1 hfind hact hnot
  have hfind2 : (mark store code studentId now1).2.find? (fun t => t.code == code) =
      some { s with markedStudents := studentId :: s.markedStudents } := by
    rw [hmark1]
    exact find?_map_ite (fun t => t.code == code)
      (fun t => { t with markedStudents := studentId :: t.markedStudents })
      (fun t ht => ht) store s hfind
  have hact' : s.status = SessionStatus.active ∧ now1 < s.createdAt + s.windowDuration := by
    simpa [isActive] using hact
  have hact2 : isActive { s with markedStudents := studentId :: s.markedStudents } now2 = true := by
    simp [isActive]
    exact ⟨hact'.1, hwin⟩
  have hmem2 : studentId ∈ ({ s with markedStudents := studentId :: s.markedStudents } :
      Session).markedStudents := by
    simp
  have hmark2 := mark_already_eq (mark store code studentId now1).2
    { s with markedStudents := studentId :: s.markedStudents } code studentId now2
    hfind2 hact2 hmem2
  refine ⟨by rw [hmark1], hfind2, ?_, by rw [hmark2], by rw [hmark2]⟩
  simp [List.count_cons_self, List.count_eq_zero.mpr hnot]

/-- Witness for C1: the sample student X marked at t = 10 ms and again at
t = 20 ms against the sample active session. -/
theorem mark_twice_single_membership_witness :
    (mark wStore "code1" "X" 10).1 = MarkResult.success wSession.subject wSession.classroom ∧
    ((mark wStore "code1" "X" 10).2.find? (fun t => t.code == "code1") =
      some { wSession with markedStudents := "X" :: wSession.markedStudents }) ∧
    List.count "X" ("X" :: wSession.markedStudents) = 1 ∧
    (mark (mark wStore "code1" "X" 10).2 "code1" "X" 20).1 = MarkResult.alreadyMarked ∧
    (mark (mark wStore "code1" "X" 10).2 "code1" "X" 20).2 = (mark wStore "code1" "X" 10).2 :=
  mark_twice_single_membership wStore wSession "code1" "X" 10 20
    (by decide) (by decide) (by decide) (by decide)

/-- Claim C2: a mark against a session that is not active (already Expired,
or its window elapsed) fails with Expired, never succeeds, leaves the marked
students untouched, and transitions the session to Expired — idempotently
when it already was. -/
theorem mark_expired_never_succeeds
    (store : List Session) (s : Session) (code studentId : String) (now : Int)
    (hfind : store.find? (fun t => t.code == code) = some s)
    (hinact : isActive s now = false) :
    (mark store code studentId now).1 = MarkResult.expired ∧
    ((mark store code studentId now).2.find? (fun t => t.code == code) =
      some { s with status := SessionStatus.expired }) ∧
    ({ s with status := SessionStatus.expired } : Session).markedStudents = s.markedStudents ∧
    (s.status = SessionStatus.expired →
      ({ s with status := SessionStatus.expired } : Session) = s) := by
  have hmark := mark_expired_eq store s code studentId now hfind hinact
  refine ⟨by rw [hmark], ?_, rfl, ?_⟩
  · rw [hmark]
    exact find?_map_ite (fun t => t.code == code)
      (fun t => { t with status := SessionStatus.expired })
      (fun t ht => ht) store s hfind
  · intro hs
    cases s with
    | mk i o su cl c ca w st ms =>
      simp only at hs
      rw [hs]

/-- Witness for C2: the sample session's window has elapsed at t = 999999
ms, so the scan fails Expired. -/
theorem mark_expired_never_succeeds_witness :
    (mark wStore "code1" "X" 999999).1 = MarkResult.expired ∧
    ((mark wStore "code1" "X" 999999).2.find? (fun t => t.code == "code1") =
      some { wSession with status := SessionStatus.expired }) ∧
    ({ wSession with status := SessionStatus.expired } : Session).markedStudents =
      wSession.markedStudents ∧
    (wSession.status = SessionStatus.expired →
      ({ wSession with status := SessionStatus.expired } : Session) = wSession) :=
  mark_expired_never_succeeds wStore wSession "code1" "X" 999999 (by decide) (by decide)

/-- Claim C5: sessionDetail returns the status and marked students exactly
for the owner; a non-owner gets Forbidden and an unknown session id gets
NotFound. -/
theorem sessionDetail_owner_scoped (store : List Session) (sid uid : String) :
    (store.find? (fun t => t.id == sid) = none →
      sessionDetail store sid uid = DetailResult.notFound) ∧
    (∀ s, store.find? (fun t => t.id == sid) = some s →
      (s.ownerId = uid →
        sessionDetail store sid uid = DetailResult.detail s.status s.markedStudents) ∧
      (s.ownerId ≠ uid → sessionDetail store sid uid = DetailResult.forbidden)) := by
  constructor
  · intro h
    simp [sessionDetail, h]
  · intro s h
    constructor
    · intro ho
      simp [sessionDetail, h, ho]
    · intro ho
      simp [sessionDetail, h, ho]

/-- Witness for C5: the sample session's detail for its owner F1 and for the
stranger F2. -/
theorem sessionDetail_owner_scoped_witness :
    sessionDetail wStore "sid1" "F1" = DetailResult.detail wSession.status wSession.markedStudents ∧
    sessionDetail wStore "sid1" "F2" = DetailResult.forbidden :=
  ⟨((sessionDetail_owner_scoped wStore "sid1" "F1").2 wSession (by decide)).1 rfl,
   ((sessionDetail_owner_scoped wStore "sid1" "F2").2 wSession (by decide)).2 (by decide)⟩

/-- Claim C8: openSession inserts a fresh Active session carrying the
generated code, and a collision of that code with any stored session is a
hard Conflict with nothing inserted. -/
theorem openSession_fresh_or_conflict (store : List Session)
    (o su cl : String) (w : Int) (c i : String) (n : Int) :
    (store.any (fun t => t.code == c) = false →
      openSession store o su cl w c i n =
        (OpenResult.opened
          { id := i, ownerId := o, subject := su, classroom := cl, code := c,
            createdAt := n, windowDuration := w, status := SessionStatus.active,
            markedStudents := [] },
         { id := i, ownerId := o, subject := su, classroom := cl, code := c,
           createdAt := n, windowDuration := w, status := SessionStatus.active,
           markedStudents := [] } :: store)) ∧
    (store.any (fun t => t.code == c) = true →
      openSession store o su cl w c i n = (OpenResult.conflict, store)) := by
  constructor
  · intro h
    simp [openSession, h]
  · intro h
    simp [openSession, h]

/-- Witness for C8: opening against the sample store with a fresh code and
with the already-used code "code1". -/
theorem openSession_fresh_or_conflict_witness :
    openSession wStore "F2" "Phy" "R2" 60000 "code2" "sid2" 0 =
      (OpenResult.opened
        { id := "sid2", ownerId := "F2", subject := "Phy", classroom := "R2",
          code := "code2", createdAt := 0, windowDuration := 60000,
          status := SessionStatus.active, markedStudents := [] },
       { id := "sid2", ownerId := "F2", subject := "Phy", classroom := "R2",
         code := "code2", createdAt := 0, windowDuration := 60000,
         status := SessionStatus.active, markedStudents := [] } :: wStore) ∧
    openSession wStore "F2" "Phy" "R2" 60000 "code1" "sid2" 0 =
      (OpenResult.conflict, wStore) :=
  ⟨(openSession_fresh_or_conflict wStore "F2" "Phy" "R2" 60000 "code2" "sid2" 0).1 (by decide),
   (openSession_fresh_or_conflict wStore "F2" "Phy" "R2" 60000 "code1" "sid2" 0).2 (by decide)⟩

/-- Claim C3: the stored codes stay pairwise distinct under every engine
operation, and an insert whose generated code collides is a hard Conflict
that inserts nothing. -/
theorem code_unique_across_store :
    (∀ (store : List Session) (op : EngineOp),
      codesNodup store → codesNodup (stepOp store op)) ∧
    (∀ (store : List Session) (o su cl : String) (w : Int) (c i : String) (n : Int),
      store.any (fun t => t.code == c) = true →
      openSession store o su cl w c i n = (OpenResult.conflict, store)) := by
  constructor
  · intro store op h
    cases op with
    | openOp o su cl w c i n =>
      by_cases hc : store.any (fun t => t.code == c) = true
      · simpa [stepOp, openSession, hc] using h
      · have hc' : store.any (fun t => t.code == c) = false := by
          simpa using hc
        have hne : ∀ t ∈ store, ¬ (t.code == c) = true := List.any_eq_false.mp hc'
        simp only [stepOp, openSession, hc', if_neg]
        rw [if_neg (by simp [hc'])]
        simp only [codesNodup, List.map_cons]
        refine List.nodup_cons.mpr ⟨?_, h⟩
        intro hmem
        obtain ⟨t, ht, hte⟩ := List.mem_map.mp hmem
        exact hne t ht (by simp [hte])
    | markOp c st n =>
      cases hf : store.find? (fun t => t.code == c) with
      | none =>
        simpa [stepOp, mark, hf] using h
      | some s =>
        by_cases hact : isActive s n = true
        · by_cases hmem : st ∈ s.markedStudents
          · rw [stepOp, mark_already_eq store s c st n hf hact hmem]
            exact h
          · rw [stepOp, mark_success_eq store s c st n hf hact hmem]
            show codesNodup _
            unfold codesNodup
            rw [map_code_ite (fun t => t.code == c)
              (fun t => { t with markedStudents := st :: t.markedStudents })
              (fun t => rfl) store]
            exact h
        · have hact' : isActive s n = false := by
            simpa using hact
          rw [stepOp, mark_expired_eq store s c st n hf hact']
          show codesNodup _
          unfold codesNodup
          rw [map_code_ite (fun t => t.code == c)
            (fun t => { t with status := SessionStatus.expired })
            (fun t => rfl) store]
          exact h
    | expireOp i =>
      show codesNodup _
      unfold codesNodup stepOp expire
      rw [map_code_ite (fun t => t.id == i && decide (t.status = SessionStatus.active))
        (fun t => { t with status := SessionStatus.expired })
        (fun t => rfl) store]
      exact h
  · intro store o su cl w c i n h
    simp [openSession, h]

/-- Witness for C3: one step on the sample store keeps its codes distinct,
and the colliding insert is refused. -/
theorem code_unique_across_store_witness :
    codesNodup (stepOp wStore (EngineOp.markOp "code1" "X" 10)) ∧
    openSession wStore "F2" "Phy" "R2" 60000 "code1" "sid2" 0 =
      (OpenResult.conflict, wStore) :=
  ⟨(code_unique_across_store).1 wStore (EngineOp.markOp "code1" "X" 10)
    (by show (wStore.map (fun t => t.code)).Nodup; decide),
   (code_unique_across_store).2 wStore "F2" "Phy" "R2" 60000 "code1" "sid2" 0 (by decide)⟩

/-- A conditional per-session update that preserves id, code and the
Expired status leaves an Expired session with an Expired image in the
updated store. -/
lemma exists_image_ite (p : Session → Bool) (g : Session → Session)
    (hid : ∀ u, (g u).id = u.id) (hcode : ∀ u, (g u).code = u.code)
    (hstat : ∀ u, u.status = SessionStatus.expired → (g u).status = SessionStatus.expired)
    (store : List Session) (t : Session) (ht : t ∈ store)
    (hst : t.status = SessionStatus.expired) :
    ∃ t' ∈ store.map (fun u => if p u then g u else u),
      t'.id = t.id ∧ t'.code = t.code ∧ t'.status = SessionStatus.expired := by
  refine ⟨(fun u => if p u then g u else u) t, List.mem_map_of_mem _ ht, ?_⟩
  by_cases hp : p t = true
  · simp only [if_pos hp]
    exact ⟨hid t, hcode t, hstat t hst⟩
  · simp only [if_neg hp]
    exact ⟨trivial, trivial, hst⟩

/-- Claim C6: a session is created Active, and Expired is terminal — no
engine operation ever moves a stored Expired session to any other status. -/
theorem status_active_then_expired_terminal :
    (∀ (store : List Session) (o su cl : String) (w : Int) (c i : String) (n : Int)
       (r : Session) (store' : List Session),
      openSession store o su cl w c i n = (OpenResult.opened r, store') →
      r.status = SessionStatus.active) ∧
    (∀ (store : List Session) (op : EngineOp) (t : Session),
      t ∈ store → t.status = SessionStatus.expired →
      ∃ t' ∈ stepOp store op, t'.id = t.id ∧ t'.code = t.code ∧
        t'.status = SessionStatus.expired) := by
  constructor
  · intro store o su cl w c i n r store' h
    by_cases hc : store.any (fun t => t.code == c) = true
    · simp [openSession, hc] at h
    · have hc' : store.any (fun t => t.code == c) = false := by simpa using hc
      simp [openSession, hc'] at h
      rw [← h.1]
  · intro store op t ht hst
    cases op with
    | openOp o su cl w c i n =>
      by_cases hc : store.any (fun t => t.code == c) = true
      · refine ⟨t, ?_, rfl, rfl, hst⟩
        simpa [stepOp, openSession, hc] using ht
      · have hc' : store.any (fun t => t.code == c) = false := by simpa using hc
        refine ⟨t, ?_, rfl, rfl, hst⟩
        simp [stepOp, openSession, hc']
        right
        exact ht
    | markOp c st n =>
      cases hf : store.find? (fun t => t.code == c) with
      | none =>
        refine ⟨t, ?_, rfl, rfl, hst⟩
        simpa [stepOp, mark, hf] using ht
      | some s =>
        by_cases hact : isActive s n = true
        · by_cases hmem : st ∈ s.markedStudents
          · refine ⟨t, ?_, rfl, rfl, hst⟩
            rw [stepOp, mark_already_eq store s c st n hf hact hmem]
            exact ht
          · rw [stepOp, mark_success_eq store s c st n hf hact hmem]
            exact exists_image_ite (fun u => u.code == c)
              (fun u => { u with markedStudents := st :: u.markedStudents })
              (fun u => rfl) (fun u => rfl) (fun u hu => hu) store t ht hst
        · have hact' : isActive s n = false := by simpa using hact
          rw [stepOp, mark_expired_eq store s c st n hf hact']
          exact exists_image_ite (fun u => u.code == c)
            (fun u => { u with status := SessionStatus.expired })
            (fun u => rfl) (fun u => rfl) (fun u _ => rfl) store t ht hst
    | expireOp i =>
      rw [stepOp, expire]
      exact exists_image_ite
        (fun u => u.id == i && decide (u.status = SessionStatus.active))
        (fun u => { u with status := SessionStatus.expired })
        (fun u => rfl) (fun u => rfl) (fun u _ => rfl) store t ht hst

/-- Witness for C6: a freshly opened session is Active, and the expired
math session S1 stays Expired across an expire call. -/
theorem status_active_then_expired_terminal_witness :
    ({ id := "sid2", ownerId := "F2", subject := "Phy", classroom := "R2",
       code := "code2", createdAt := 0, windowDuration := 60000,
       status := SessionStatus.active, markedStudents := [] } : Session).status =
      SessionStatus.active ∧
    ∃ t' ∈ stepOp mathStore (EngineOp.expireOp "s1"), t'.id = mathS1.id ∧
      t'.code = mathS1.code ∧ t'.status = SessionStatus.expired :=
  ⟨(status_active_then_expired_terminal).1 wStore "F2" "Phy" "R2" 60000 "code2" "sid2" 0
    { id := "sid2", ownerId := "F2", subject := "Phy", classroom := "R2",
      code := "code2", createdAt := 0, windowDuration := 60000,
      status := SessionStatus.active, markedStudents := [] }
    ({ id := "sid2", ownerId := "F2", subject := "Phy", classroom := "R2",
       code := "code2", createdAt := 0, windowDuration := 60000,
       status := SessionStatus.active, markedStudents := [] } :: wStore)
    (by decide),
   (status_active_then_expired_terminal).2 mathStore (EngineOp.expireOp "s1") mathS1
    (by decide) (by decide)⟩

/-- Claim C4: reportFor groups an owner's sessions by subject; per group the
total counts every session (marked or not), each student's count is the
number of group sessions containing them, and the percentage is the exact
`count / total * 100`; on the spec's Math example it yields total 2, 100%
for A and 50% for B. -/
theorem reportFor_aggregation_correct :
    (∀ (store : List Session) (ownerId subj : String) (total : Nat)
       (entries : List (String × Nat × ℚ)),
      (reportFor store ownerId).lookup subj = some (total, entries) →
        total = totalSessions store ownerId subj ∧
        ∀ st cnt pct, (st, cnt, pct) ∈ entries →
          cnt = attendanceCount store ownerId subj st ∧
          pct = ((cnt : ℚ) / ((total : Nat) : ℚ)) * 100) ∧
    reportFor mathStore "F1" = [("Math", 2, [("A", 2, 100), ("B", 1, 50)])] := by
  constructor
  · intro store ownerId subj total entries h
    simp only [reportFor] at h
    have hv := lookup_map_pair
      (fun sb => subjectReport
        ((store.filter (fun t => t.ownerId == ownerId)).filter (fun t => t.subject == sb)))
      (((store.filter (fun t => t.ownerId == ownerId)).map (fun t => t.subject)).eraseDups)
      subj (total, entries) h
    have htotal : total =
        (subjectReport ((store.filter (fun t => t.ownerId == ownerId)).filter
          (fun t => t.subject == subj))).1 :=
      congrArg Prod.fst hv
    have hentries : entries =
        (subjectReport ((store.filter (fun t => t.ownerId == ownerId)).filter
          (fun t => t.subject == subj))).2 :=
      congrArg Prod.snd hv
    refine ⟨htotal, ?_⟩
    intro st cnt pct hmem
    rw [hentries] at hmem
    simp only [subjectReport, List.mem_map] at hmem
    obtain ⟨a, ha, heq⟩ := hmem
    simp only [Prod.mk.injEq] at heq
    obtain ⟨rfl, hcnt, hpct⟩ := heq
    refine ⟨hcnt.symm, ?_⟩
    rw [← hpct, ← hcnt, htotal]
    exact divInt_percentage _ _
  · decide

/-- Witness for C4: the general characterization applied to the concrete
Math store. -/
theorem reportFor_aggregation_correct_witness :
    2 = totalSessions mathStore "F1" "Math" ∧
    ∀ st cnt pct, (st, cnt, pct) ∈ [("A", (2 : Nat), (100 : ℚ)), ("B", 1, 50)] →
      cnt = attendanceCount mathStore "F1" "Math" st ∧
      pct = ((cnt : ℚ) / (((2 : Nat) : Nat) : ℚ)) * 100 :=
  (reportFor_aggregation_correct).1 mathStore "F1" "Math" 2
    [("A", 2, 100), ("B", 1, 50)] (by decide)

/-- Claim C9: a document accepted by the attendance schema has status
"active" or "expired" and all required fields present; creation defaults the
status to "active" and the sessionDate to the creation instant; and the
markedStudents array is unconstrained — any list, duplicates included, is
stored as given, so at-most-once marking is not enforced by the data
model. -/
theorem attendanceSchema_document_invariants :
    (∀ (input : AttendanceInput) (now : Int) (d : AttendanceDoc),
      createAttendance input now = some d →
        (d.status = "active" ∨ d.status = "expired") ∧
        input.faculty = some d.faculty ∧ input.subject = some d.subject ∧
        input.qrCode = some d.qrCode ∧ input.classRoom = some d.classRoom ∧
        d.markedStudents = input.markedStudents) ∧
    (∀ (input : AttendanceInput) (now : Int) (d : AttendanceDoc),
      createAttendance input now = some d → input.status = none →
        d.status = "active") ∧
    (∀ (input : AttendanceInput) (now : Int) (d : AttendanceDoc),
      createAttendance input now = some d → input.sessionDate = none →
        d.sessionDate = now) ∧
    (∀ (f subj q c : String) (l : List String) (now : Int),
      createAttendance
        { faculty := some f, markedStudents := l, subject := some subj,
          sessionDate := none, qrCode := some q, status := none,
          classRoom := some c } now =
        some { faculty := f, markedStudents := l, subject := subj, sessionDate := now,
               qrCode := q, status := "active", classRoom := c }) := by
  have hkey : ∀ (input : AttendanceInput) (now : Int) (d : AttendanceDoc),
      createAttendance input now = some d →
        input.faculty = some d.faculty ∧ input.subject = some d.subject ∧
        input.qrCode = some d.qrCode ∧ input.classRoom = some d.classRoom ∧
        d.markedStudents = input.markedStudents ∧
        d.status = input.status.getD "active" ∧
        (d.status = "active" ∨ d.status = "expired") ∧
        d.sessionDate = input.sessionDate.getD now := by
    intro input now d h
    simp only [createAttendance, Option.bind_eq_some] at h
    obtain ⟨f, hf, subj, hsubj, q, hq, c, hc, h⟩ := h
    split at h
    · rename_i hok
      injection h with h
      rw [← h]
      exact ⟨by rw [hf], by rw [hsubj], by rw [hq], by rw [hc], rfl, rfl, hok, rfl⟩
    · exact absurd h (by simp)
  refine ⟨?_, ?_, ?_, ?_⟩
  · intro input now d h
    obtain ⟨h1, h2, h3, h4, h5, _, h7, _⟩ := hkey input now d h
    exact ⟨h7, h1, h2, h3, h4, h5⟩
  · intro input now d h hs
    obtain ⟨_, _, _, _, _, h6, _, _⟩ := hkey input now d h
    rw [h6, hs]
    rfl
  · intro input now d h hs
    obtain ⟨_, _, _, _, _, _, _, h8⟩ := hkey input now d h
    rw [h8, hs]
    rfl
  · intro f subj q c l now
    simp [createAttendance]

/-- Witness for C9: a creation input with a duplicated student and no
explicit status or date is accepted with the defaults applied. -/
theorem attendanceSchema_document_invariants_witness :
    createAttendance
      { faculty := some "fac1", markedStudents := ["X", "X"], subject := some "Math",
        sessionDate := none, qrCode := some "q9", status := none,
        classRoom := some "R1" } 42 =
      some { faculty := "fac1", markedStudents := ["X", "X"], subject := "Math",
             sessionDate := 42, qrCode := "q9", status := "active", classRoom := "R1" } :=
  (attendanceSchema_document_invariants).2.2.2 "fac1" "Math" "q9" "R1" ["X", "X"] 42
